import Mathlib

/-!
# Verification of the touch_remote command-dispatch core

A shallow embedding of `src/main.py`: the button classes (`WebOsButton`,
`SystemButton`, `MediaButton`, `ApplicationButton`, `InputButton`, `PowerOn`)
and their `control` properties and `on_press` handlers, modelled as pure
state-passing functions.  The external collaborators (the WebOS client
adapter, the four pywebostv controls, `get_mac_address`, `send_magic_packet`)
are opaque: one press is parameterised by an environment recording the
outcome (success or raised exception) of each external call made during that
press.  Each press emits a trace of the observable calls it performs.
-/

namespace TouchRemote

/-- Python exception classes, split by the single distinction `main.py` makes:
`except OSError` at the dispatch sites catches `osError` (which covers
`ConnectionError` and every other network/OS-level error class, all
subclasses of `OSError` in Python) and lets every `other` class propagate. -/
inductive PyExc where
  | osError (msg : String)
  | other (msg : String)
deriving DecidableEq, Repr

/-- Whether a raised exception is matched by `except OSError`. -/
def PyExc.isOSError : PyExc → Bool
  | .osError _ => true
  | .other _ => false

/-- The four façade capabilities: `SystemControl`, `MediaControl`,
`ApplicationControl`, `InputControl` from `pywebostv.controls`. -/
inductive FacadeKind where
  | system
  | media
  | application
  | input
deriving DecidableEq, Repr

/-- A constructed control façade.  `handle` identifies the connection handle
returned by `adapter.create` that the constructor wrapped; `connected`
records, for an `InputControl`, whether `connect_input()` has completed
successfully (constructors produce it `false`; it is irrelevant for the
other three kinds and stays `false` there). -/
structure Facade where
  kind : FacadeKind
  handle : Nat
  connected : Bool
deriving DecidableEq, Repr

/-- Observable external calls made during a press, in order. -/
inductive Event where
  | adapterCreate (path device : String)
  | facadeConstruct (kind : FacadeKind) (handle : Nat)
  | connectInput
  | invoke (method : String) (argCount : Nat)
  | launch (descriptorId : String)
  | printError (e : PyExc)
  | getMacAddress (ip : String)
  | sendMagicPacket (mac : String)
deriving DecidableEq, Repr

/-- The per-button mutable state: the `_control` attribute set to `None` in
`WebOsButton.__init__` (line 26) and lazily assigned by the `control`
properties. -/
structure ButtonState where
  control : Option Facade
deriving DecidableEq, Repr

/-- Outcomes of the external calls a single press can make through the WebOS
client: `adapter.create` (returning an opaque handle, numbered), the
`connect_input()` channel handshake, and the final command method /
`launch` call on the façade. -/
structure Env where
  createResult : Except PyExc Nat
  connectInputResult : Except PyExc Unit
  invokeResult : Except PyExc Unit
deriving Repr

/-- `str(Path().home() / '.lgtv.yaml')`: joining the home directory with a
file name. -/
def pathJoin (base name : String) : String := base ++ "/" ++ name

/-- Config path written inline in `SystemButton.control` (line 54). -/
def systemConfigPath (homeDir : String) : String := pathJoin homeDir ".lgtv.yaml"

/-- Config path written inline in `MediaButton.control` (line 68). -/
def mediaConfigPath (homeDir : String) : String := pathJoin homeDir ".lgtv.yaml"

/-- Config path written inline in `ApplicationButton.control` (line 82). -/
def applicationConfigPath (homeDir : String) : String := pathJoin homeDir ".lgtv.yaml"

/-- Config path written inline in `InputButton.control` (line 102). -/
def inputConfigPath (homeDir : String) : String := pathJoin homeDir ".lgtv.yaml"

/-- Config path used by `TouchRemoteApp.build` for `settings.load` (line 320). -/
def buildConfigPath (homeDir : String) : String := pathJoin homeDir ".lgtv.yaml"

/-- Device name `'living_room'` passed to `adapter.create` by every `control`
property (lines 54, 68, 82, 102). -/
def controlDeviceName : String := "living_room"

/-- Device name in `settings.get('living_room')` in `PowerGrid.__init__`
(line 134). -/
def powerGridDeviceName : String := "living_room"

/-- The config path each façade kind's `control` property passes to
`adapter.create`. -/
def kindConfigPath (k : FacadeKind) (homeDir : String) : String :=
  match k with
  | .system => systemConfigPath homeDir
  | .media => mediaConfigPath homeDir
  | .application => applicationConfigPath homeDir
  | .input => inputConfigPath homeDir

/-- Result of evaluating a `control` property: the value returned or the
exception raised, together with the button state after evaluation (a raised
exception does not roll back an attribute assignment already made) and the
trace of external calls. -/
structure GetResult where
  result : Except PyExc Facade
  state : ButtonState
  trace : List Event
deriving Repr

/-- The `control` property of `SystemButton` / `MediaButton` /
`ApplicationButton` / `InputButton` (lines 51-56, 65-70, 79-84, 99-105):

```
if self._control is None:
    self._control = KindControl(self.adapter.create(path, 'living_room'))
    self._control.connect_input()   # InputButton only
return self._control
```

For the input kind the source assigns `self._control` first and calls
`connect_input()` afterwards, so a `connect_input` failure leaves the
unconnected façade cached. -/
def controlGet (k : FacadeKind) (homeDir : String) (s : ButtonState) (env : Env) :
    GetResult :=
  match s.control with
  | some c => ⟨.ok c, s, []⟩
  | none =>
    let evCreate := Event.adapterCreate (kindConfigPath k homeDir) controlDeviceName
    match env.createResult with
    | .error e => ⟨.error e, s, [evCreate]⟩
    | .ok h =>
      let c : Facade := ⟨k, h, false⟩
      let evs := [evCreate, Event.facadeConstruct k h]
      match k with
      | .input =>
        let s1 : ButtonState := ⟨some c⟩
        match env.connectInputResult with
        | .error e => ⟨.error e, s1, evs ++ [Event.connectInput]⟩
        | .ok _ =>
          let c1 : Facade := { c with connected := true }
          ⟨.ok c1, ⟨some c1⟩, evs ++ [Event.connectInput]⟩
      | _ => ⟨.ok c, ⟨some c⟩, evs⟩

/-- Result of one press: the button state afterwards, the trace of external
calls, and the exception that propagated out of the handler, if any
(`none` means the handler returned normally). -/
structure PressResult where
  state : ButtonState
  trace : List Event
  propagated : Option PyExc
deriving Repr

/-- `except OSError as e: print(e)` — an `OSError`-class exception is caught
and printed; any other class propagates. -/
def handleCaught (e : PyExc) (st : ButtonState) (tr : List Event) : PressResult :=
  match e with
  | .osError m => ⟨st, tr ++ [Event.printError (.osError m)], none⟩
  | .other m => ⟨st, tr, some (.other m)⟩

/-- Python's `str.lower()` on one character: ASCII upper-case letters map to
their lower-case counterparts, everything else is unchanged (all command
strings in `main.py` are ASCII). -/
def asciiLowerChar (c : Char) : Char :=
  if c.toNat ≥ 65 ∧ c.toNat ≤ 90 then Char.ofNat (c.toNat + 32) else c

/-- Python's `str.lower()`, as applied in `self.command.lower()` (line 40). -/
def pyLower (s : String) : String := ⟨s.data.map asciiLowerChar⟩

/-- `WebOsButton.on_press` (lines 38-42):

```
try:
    getattr(self.control, self.command.lower())()
except OSError as e:
    print(e)
``` -/
def webOsOnPress (k : FacadeKind) (command homeDir : String) (s : ButtonState)
    (env : Env) : PressResult :=
  let g := controlGet k homeDir s env
  match g.result with
  | .error e => handleCaught e g.state g.trace
  | .ok _ =>
    let tr := g.trace ++ [Event.invoke (pyLower command) 0]
    match env.invokeResult with
    | .error e => handleCaught e g.state tr
    | .ok _ => ⟨g.state, tr, none⟩

/-- `ApplicationButton.on_press` (lines 86-90):

```
try:
    self.control.launch(Application({'id': self.command}))
except OSError as e:
    print(e)
``` -/
def applicationOnPress (command homeDir : String) (s : ButtonState) (env : Env) :
    PressResult :=
  let g := controlGet .application homeDir s env
  match g.result with
  | .error e => handleCaught e g.state g.trace
  | .ok _ =>
    let tr := g.trace ++ [Event.launch command]
    match env.invokeResult with
    | .error e => handleCaught e g.state tr
    | .ok _ => ⟨g.state, tr, none⟩

/-- A Python statement as it appears in the body of `Play.command`
(lines 174-177): either an expression statement whose expression is a bare
float literal, or a `return` of a string literal. -/
inductive PyStmt where
  | exprStmt (v : Float)
  | ret (v : String)

/-- Executing a statement list over an arbitrary state type `S`: an
expression statement evaluates its literal and discards it (no state change,
no exception); `return` stops with the value.  Falling off the end would
return Python `None`, modelled as a `TypeError`-style non-string result. -/
def execStmts {S : Type} : List PyStmt → S → Except PyExc (String × S)
  | [], _ => .error (.other "implicit None return")
  | .exprStmt _ :: rest, st => execStmts rest st
  | .ret v :: _, st => .ok (v, st)

/-- The body of `Play.command` (lines 174-177): the placeholder statement
`.0` followed by `return 'play'`. -/
def playCommandBody : List PyStmt := [.exprStmt 0.0, .ret "play"]

/-- The value `Play.command` evaluates to. -/
def playCommand : String :=
  match execStmts playCommandBody () with
  | .ok (v, _) => v
  | .error _ => ""

/-- Every concrete command-button class in `main.py` (the `WebOsButton`
subclasses with a concrete `command` property). -/
inductive ButtonId where
  | powerOff
  | volumeUp
  | volumeDown
  | rewind
  | pause
  | play
  | fastForward
  | home
  | back
  | up
  | left
  | right
  | down
  | ok
  | mute
  | settingsApp
deriving DecidableEq, Repr

/-- Each button's `command` property (the string literals at lines 126, 143,
151, 159, 167, 177, 185, 213, 221, 229, 237, 245, 253, 261, 269, 277). -/
def ButtonId.command : ButtonId → String
  | .powerOff => "power_off"
  | .volumeUp => "volume_up"
  | .volumeDown => "volume_down"
  | .rewind => "rewind"
  | .pause => "pause"
  | .play => playCommand
  | .fastForward => "fast_forward"
  | .home => "home"
  | .back => "back"
  | .up => "up"
  | .left => "left"
  | .right => "right"
  | .down => "down"
  | .ok => "ok"
  | .mute => "mute"
  | .settingsApp => "com.palm.app.settings"

/-- Which abstract button class each concrete button extends, hence which
façade its `control` property constructs. -/
def ButtonId.facadeKind : ButtonId → FacadeKind
  | .powerOff => .system
  | .volumeUp => .media
  | .volumeDown => .media
  | .rewind => .media
  | .pause => .media
  | .play => .media
  | .fastForward => .media
  | .home => .input
  | .back => .input
  | .up => .input
  | .left => .input
  | .right => .input
  | .down => .input
  | .ok => .input
  | .mute => .media
  | .settingsApp => .application

/-- Whether the button inherits `ApplicationButton.on_press` (the
launch-by-descriptor override) instead of `WebOsButton.on_press`. -/
def ButtonId.isApplicationLaunch : ButtonId → Bool
  | .settingsApp => true
  | _ => false

/-- One press of a command button: dispatch through the `on_press` the
button's class inherits. -/
def pressButton (b : ButtonId) (homeDir : String) (s : ButtonState) (env : Env) :
    PressResult :=
  if b.isApplicationLaunch then applicationOnPress b.command homeDir s env
  else webOsOnPress b.facadeKind b.command homeDir s env

/-- A sequence of presses of one button instance, threading its `_control`
state; returns the per-press results in order. -/
def runPresses (b : ButtonId) (homeDir : String) : ButtonState → List Env → List PressResult
  | _, [] => []
  | s, env :: rest =>
    let r := pressButton b homeDir s env
    r :: runPresses b homeDir r.state rest

/-- `TvSettings` for one device as used by `PowerOn` (line 118 reads
`self.settings.host`). -/
structure TvSettings where
  host : String
deriving Repr

/-- Outcomes of the two external calls in `PowerOn.on_press`:
`get_mac_address(ip=...)` and `send_magic_packet(...)`. -/
structure PowerEnv where
  macResult : Except PyExc String
  sendResult : Except PyExc Unit
deriving Repr

/-- `PowerOn.on_press` (lines 117-118):

```
def on_press(self):
    send_magic_packet(get_mac_address(ip=self.settings.host))
```

No `try`/`except`, and `PowerOn` keeps no state between presses, so the
press is a pure function of the settings and the external outcomes.  The
argument is evaluated first (address resolution), then the wake packet is
sent. -/
def powerOnPress (settings : TvSettings) (env : PowerEnv) :
    List Event × Option PyExc :=
  match env.macResult with
  | .error e => ([Event.getMacAddress settings.host], some e)
  | .ok mac =>
    match env.sendResult with
    | .error e =>
      ([Event.getMacAddress settings.host, Event.sendMagicPacket mac], some e)
    | .ok _ =>
      ([Event.getMacAddress settings.host, Event.sendMagicPacket mac], none)

/-- Events that talk to the television control protocol client (the adapter
or a pywebostv control object). -/
def isTvProtocolEvent : Event → Bool
  | .adapterCreate _ _ => true
  | .facadeConstruct _ _ => true
  | .connectInput => true
  | .invoke _ _ => true
  | .launch _ => true
  | _ => false

/-- Façade-constructor calls in a trace. -/
def isConstructEvent : Event → Bool
  | .facadeConstruct _ _ => true
  | _ => false

/-- `connect_input()` calls in a trace. -/
def isConnectInputEvent : Event → Bool
  | .connectInput => true
  | _ => false

def countConstruct (tr : List Event) : Nat := tr.countP isConstructEvent

def countConnect (tr : List Event) : Nat := tr.countP isConnectInputEvent

/-! ## Characterisation of the `control` properties -/

lemma controlGet_cached (k : FacadeKind) (homeDir : String) (c : Facade) (env : Env) :
    controlGet k homeDir ⟨some c⟩ env = ⟨.ok c, ⟨some c⟩, []⟩ := rfl

lemma controlGet_create_error (k : FacadeKind) (homeDir : String) (env : Env) (e : PyExc)
    (h : env.createResult = .error e) :
    controlGet k homeDir ⟨none⟩ env =
      ⟨.error e, ⟨none⟩,
        [Event.adapterCreate (kindConfigPath k homeDir) controlDeviceName]⟩ := by
  simp [controlGet, h]

lemma controlGet_ok_noninput (k : FacadeKind) (homeDir : String) (env : Env) (n : Nat)
    (h : env.createResult = .ok n) (hk : k ≠ .input) :
    controlGet k homeDir ⟨none⟩ env =
      ⟨.ok ⟨k, n, false⟩, ⟨some ⟨k, n, false⟩⟩,
        [Event.adapterCreate (kindConfigPath k homeDir) controlDeviceName,
         Event.facadeConstruct k n]⟩ := by
  cases k <;> first
    | exact absurd rfl hk
    | simp [controlGet, h]

lemma controlGet_ok_input_connect_ok (homeDir : String) (env : Env) (n : Nat)
    (hc : env.createResult = .ok n) (hi : env.connectInputResult = .ok ()) :
    controlGet .input homeDir ⟨none⟩ env =
      ⟨.ok ⟨.input, n, true⟩, ⟨some ⟨.input, n, true⟩⟩,
        [Event.adapterCreate (kindConfigPath .input homeDir) controlDeviceName,
         Event.facadeConstruct .input n, Event.connectInput]⟩ := by
  simp [controlGet, hc, hi]

lemma controlGet_ok_input_connect_error (homeDir : String) (env : Env) (n : Nat) (e : PyExc)
    (hc : env.createResult = .ok n) (hi : env.connectInputResult = .error e) :
    controlGet .input homeDir ⟨none⟩ env =
      ⟨.error e, ⟨some ⟨.input, n, false⟩⟩,
        [Event.adapterCreate (kindConfigPath .input homeDir) controlDeviceName,
         Event.facadeConstruct .input n, Event.connectInput]⟩ := by
  simp [controlGet, hc, hi]

lemma controlGet_error_source (k : FacadeKind) (homeDir : String) (s : ButtonState)
    (env : Env) (e : PyExc) (h : (controlGet k homeDir s env).result = .error e) :
    env.createResult = .error e ∨ env.connectInputResult = .error e := by
  obtain ⟨ctl⟩ := s
  cases ctl with
  | some c => rw [controlGet_cached] at h; exact absurd h (by simp)
  | none =>
    rcases hcr : env.createResult with e1 | n
    · rw [controlGet_create_error k homeDir env e1 hcr] at h
      simp only [Except.error.injEq] at h
      exact Or.inl (by rw [h])
    · by_cases hk : k = FacadeKind.input
      · subst hk
        rcases hci : env.connectInputResult with e2 | u
        · rw [controlGet_ok_input_connect_error homeDir env n e2 hcr hci] at h
          simp only [Except.error.injEq] at h
          exact Or.inr (by rw [h])
        · cases u
          rw [controlGet_ok_input_connect_ok homeDir env n hcr hci] at h
          exact absurd h (by simp)
      · rw [controlGet_ok_noninput k homeDir env n hcr hk] at h
        exact absurd h (by simp)

lemma controlGet_ok_state (k : FacadeKind) (homeDir : String) (s : ButtonState)
    (env : Env) (c : Facade) (h : (controlGet k homeDir s env).result = .ok c) :
    (controlGet k homeDir s env).state = ⟨some c⟩ := by
  obtain ⟨ctl⟩ := s
  cases ctl with
  | some c0 =>
    rw [controlGet_cached] at h ⊢
    simp only [Except.ok.injEq] at h
    rw [h]
  | none =>
    rcases hcr : env.createResult with e1 | n
    · rw [controlGet_create_error k homeDir env e1 hcr] at h
      exact absurd h (by simp)
    · by_cases hk : k = FacadeKind.input
      · subst hk
        rcases hci : env.connectInputResult with e2 | u
        · rw [controlGet_ok_input_connect_error homeDir env n e2 hcr hci] at h
          exact absurd h (by simp)
        · cases u
          rw [controlGet_ok_input_connect_ok homeDir env n hcr hci] at h ⊢
          simp only [Except.ok.injEq] at h
          rw [h]
      · rw [controlGet_ok_noninput k homeDir env n hcr hk] at h ⊢
        simp only [Except.ok.injEq] at h
        rw [h]

lemma controlGet_ok_create_state (k : FacadeKind) (homeDir : String) (env : Env)
    (n : Nat) (h : env.createResult = .ok n) :
    ∃ c, (controlGet k homeDir ⟨none⟩ env).state = ⟨some c⟩ := by
  by_cases hk : k = FacadeKind.input
  · subst hk
    rcases hci : env.connectInputResult with e2 | u
    · exact ⟨_, by rw [controlGet_ok_input_connect_error homeDir env n e2 h hci]⟩
    · cases u
      exact ⟨_, by rw [controlGet_ok_input_connect_ok homeDir env n h hci]⟩
  · exact ⟨_, by rw [controlGet_ok_noninput k homeDir env n h hk]⟩

lemma controlGet_counts_create_ok (k : FacadeKind) (homeDir : String) (env : Env)
    (n : Nat) (h : env.createResult = .ok n) :
    countConstruct (controlGet k homeDir ⟨none⟩ env).trace = 1 ∧
    countConnect (controlGet k homeDir ⟨none⟩ env).trace =
      (if k = FacadeKind.input then 1 else 0) := by
  by_cases hk : k = FacadeKind.input
  · subst hk
    rcases hci : env.connectInputResult with e2 | u
    · rw [controlGet_ok_input_connect_error homeDir env n e2 h hci]
      simp [countConstruct, countConnect, isConstructEvent, isConnectInputEvent,
        List.countP_cons, List.countP_nil]
    · cases u
      rw [controlGet_ok_input_connect_ok homeDir env n h hci]
      simp [countConstruct, countConnect, isConstructEvent, isConnectInputEvent,
        List.countP_cons, List.countP_nil]
  · rw [controlGet_ok_noninput k homeDir env n h hk]
    simp [countConstruct, countConnect, isConstructEvent, isConnectInputEvent,
      List.countP_cons, List.countP_nil, hk]

lemma controlGet_trace_shape (k : FacadeKind) (homeDir : String) (s : ButtonState)
    (env : Env) :
    ∀ ev ∈ (controlGet k homeDir s env).trace,
      ev = Event.adapterCreate (kindConfigPath k homeDir) controlDeviceName ∨
      (∃ n, ev = Event.facadeConstruct k n) ∨ ev = Event.connectInput := by
  obtain ⟨ctl⟩ := s
  cases ctl with
  | some c0 => rw [controlGet_cached]; intro ev hev; exact absurd hev (by simp)
  | none =>
    rcases hcr : env.createResult with e1 | n
    · rw [controlGet_create_error k homeDir env e1 hcr]
      intro ev hev
      simp only [List.mem_singleton] at hev
      exact Or.inl hev
    · by_cases hk : k = FacadeKind.input
      · subst hk
        rcases hci : env.connectInputResult with e2 | u
        · rw [controlGet_ok_input_connect_error homeDir env n e2 hcr hci]
          intro ev hev
          simp only [List.mem_cons, List.mem_singleton] at hev
          rcases hev with h1 | h1 | h1 | h1
          · exact Or.inl h1
          · exact Or.inr (Or.inl ⟨n, h1⟩)
          · exact Or.inr (Or.inr h1)
          · exact absurd h1 (by simp)
        · cases u
          rw [controlGet_ok_input_connect_ok homeDir env n hcr hci]
          intro ev hev
          simp only [List.mem_cons, List.mem_singleton] at hev
          rcases hev with h1 | h1 | h1 | h1
          · exact Or.inl h1
          · exact Or.inr (Or.inl ⟨n, h1⟩)
          · exact Or.inr (Or.inr h1)
          · exact absurd h1 (by simp)
      · rw [controlGet_ok_noninput k homeDir env n hcr hk]
        intro ev hev
        simp only [List.mem_cons, List.mem_singleton] at hev
        rcases hev with h1 | h1 | h1
        · exact Or.inl h1
        · exact Or.inr (Or.inl ⟨n, h1⟩)
        · exact absurd h1 (by simp)

/-! ## Characterisation of one press -/

lemma handleCaught_state (e : PyExc) (st : ButtonState) (tr : List Event) :
    (handleCaught e st tr).state = st := by
  cases e <;> rfl

lemma handleCaught_propagated_os (e : PyExc) (st : ButtonState) (tr : List Event)
    (h : e.isOSError = true) : (handleCaught e st tr).propagated = none := by
  cases e with
  | osError m => rfl
  | other m => simp [PyExc.isOSError] at h

lemma webOsOnPress_state (k : FacadeKind) (cmd homeDir : String) (s : ButtonState)
    (env : Env) :
    (webOsOnPress k cmd homeDir s env).state = (controlGet k homeDir s env).state := by
  simp only [webOsOnPress]
  rcases hres : (controlGet k homeDir s env).result with e | c
  · exact handleCaught_state e _ _
  · rcases hiv : env.invokeResult with e2 | u
    · exact handleCaught_state e2 _ _
    · rfl

lemma applicationOnPress_state (cmd homeDir : String) (s : ButtonState) (env : Env) :
    (applicationOnPress cmd homeDir s env).state =
      (controlGet .application homeDir s env).state := by
  simp only [applicationOnPress]
  rcases hres : (controlGet .application homeDir s env).result with e | c
  · exact handleCaught_state e _ _
  · rcases hiv : env.invokeResult with e2 | u
    · exact handleCaught_state e2 _ _
    · rfl

lemma webOsOnPress_trace (k : FacadeKind) (cmd homeDir : String) (s : ButtonState)
    (env : Env) :
    ∃ extra : List Event,
      (webOsOnPress k cmd homeDir s env).trace =
        (controlGet k homeDir s env).trace ++ extra ∧
      ∀ ev ∈ extra,
        ev = Event.invoke (pyLower cmd) 0 ∨ ∃ e, ev = Event.printError e := by
  simp only [webOsOnPress]
  rcases hres : (controlGet k homeDir s env).result with e | c
  · cases e with
    | osError m =>
      refine ⟨[Event.printError (.osError m)], rfl, ?_⟩
      intro ev hev
      simp only [List.mem_singleton] at hev
      exact Or.inr ⟨_, hev⟩
    | other m =>
      refine ⟨[], by simp [handleCaught], ?_⟩
      intro ev hev
      exact absurd hev (by simp)
  · rcases hiv : env.invokeResult with e2 | u
    · cases e2 with
      | osError m =>
        refine ⟨[Event.invoke (pyLower cmd) 0, Event.printError (.osError m)], ?_, ?_⟩
        · simp [handleCaught]
        · intro ev hev
          simp only [List.mem_cons, List.mem_singleton] at hev
          rcases hev with h1 | h1 | h1
          · exact Or.inl h1
          · exact Or.inr ⟨_, h1⟩
          · exact absurd h1 (by simp)
      | other m =>
        refine ⟨[Event.invoke (pyLower cmd) 0], by simp [handleCaught], ?_⟩
        intro ev hev
        simp only [List.mem_singleton] at hev
        exact Or.inl hev
    · refine ⟨[Event.invoke (pyLower cmd) 0], rfl, ?_⟩
      intro ev hev
      simp only [List.mem_singleton] at hev
      exact Or.inl hev

lemma applicationOnPress_trace (cmd homeDir : String) (s : ButtonState) (env : Env) :
    ∃ extra : List Event,
      (applicationOnPress cmd homeDir s env).trace =
        (controlGet .application homeDir s env).trace ++ extra ∧
      ∀ ev ∈ extra, ev = Event.launch cmd ∨ ∃ e, ev = Event.printError e := by
  simp only [applicationOnPress]
  rcases hres : (controlGet .application homeDir s env).result with e | c
  · cases e with
    | osError m =>
      refine ⟨[Event.printError (.osError m)], rfl, ?_⟩
      intro ev hev
      simp only [List.mem_singleton] at hev
      exact Or.inr ⟨_, hev⟩
    | other m =>
      refine ⟨[], by simp [handleCaught], ?_⟩
      intro ev hev
      exact absurd hev (by simp)
  · rcases hiv : env.invokeResult with e2 | u
    · cases e2 with
      | osError m =>
        refine ⟨[Event.launch cmd, Event.printError (.osError m)], ?_, ?_⟩
        · simp [handleCaught]
        · intro ev hev
          simp only [List.mem_cons, List.mem_singleton] at hev
          rcases hev with h1 | h1 | h1
          · exact Or.inl h1
          · exact Or.inr ⟨_, h1⟩
          · exact absurd h1 (by simp)
      | other m =>
        refine ⟨[Event.launch cmd], by simp [handleCaught], ?_⟩
        intro ev hev
        simp only [List.mem_singleton] at hev
        exact Or.inl hev
    · refine ⟨[Event.launch cmd], rfl, ?_⟩
      intro ev hev
      simp only [List.mem_singleton] at hev
      exact Or.inl hev

lemma webOsOnPress_propagated (k : FacadeKind) (cmd homeDir : String) (s : ButtonState)
    (env : Env)
    (hc : ∀ e, env.createResult = .error e → e.isOSError = true)
    (hci : ∀ e, env.connectInputResult = .error e → e.isOSError = true)
    (hiv : ∀ e, env.invokeResult = .error e → e.isOSError = true) :
    (webOsOnPress k cmd homeDir s env).propagated = none := by
  simp only [webOsOnPress]
  rcases hres : (controlGet k homeDir s env).result with e | c
  · refine handleCaught_propagated_os e _ _ ?_
    rcases controlGet_error_source k homeDir s env e hres with h1 | h1
    · exact hc e h1
    · exact hci e h1
  · rcases hiv2 : env.invokeResult with e2 | u
    · exact handleCaught_propagated_os e2 _ _ (hiv e2 hiv2)
    · rfl

lemma applicationOnPress_propagated (cmd homeDir : String) (s : ButtonState) (env : Env)
    (hc : ∀ e, env.createResult = .error e → e.isOSError = true)
    (hci : ∀ e, env.connectInputResult = .error e → e.isOSError = true)
    (hiv : ∀ e, env.invokeResult = .error e → e.isOSError = true) :
    (applicationOnPress cmd homeDir s env).propagated = none := by
  simp only [applicationOnPress]
  rcases hres : (controlGet .application homeDir s env).result with e | c
  · refine handleCaught_propagated_os e _ _ ?_
    rcases controlGet_error_source .application homeDir s env e hres with h1 | h1
    · exact hc e h1
    · exact hci e h1
  · rcases hiv2 : env.invokeResult with e2 | u
    · exact handleCaught_propagated_os e2 _ _ (hiv e2 hiv2)
    · rfl

/-- The only override of `WebOsButton.on_press` among the concrete buttons is
`ApplicationButton.on_press`, inherited exactly by `SettingsApp`, whose
`control` property constructs an `ApplicationControl`. -/
lemma facadeKind_of_applicationLaunch (b : ButtonId) (hb : b.isApplicationLaunch = true) :
    b.facadeKind = .application := by
  cases b <;> first
    | rfl
    | simp [ButtonId.isApplicationLaunch] at hb

lemma pressButton_app (b : ButtonId) (homeDir : String) (s : ButtonState) (env : Env)
    (hb : b.isApplicationLaunch = true) :
    pressButton b homeDir s env = applicationOnPress b.command homeDir s env := by
  simp [pressButton, hb]

lemma pressButton_webOs (b : ButtonId) (homeDir : String) (s : ButtonState) (env : Env)
    (hb : b.isApplicationLaunch = false) :
    pressButton b homeDir s env = webOsOnPress b.facadeKind b.command homeDir s env := by
  simp [pressButton, hb]

lemma pressButton_state (b : ButtonId) (homeDir : String) (s : ButtonState) (env : Env) :
    (pressButton b homeDir s env).state = (controlGet b.facadeKind homeDir s env).state := by
  rcases hb : b.isApplicationLaunch with _ | _
  · rw [pressButton_webOs b homeDir s env hb]
    exact webOsOnPress_state b.facadeKind b.command homeDir s env
  · rw [pressButton_app b homeDir s env hb, facadeKind_of_applicationLaunch b hb]
    exact applicationOnPress_state b.command homeDir s env

/-- Trace events a press adds beyond those of the `control` property: the
command-method call, the `launch` call, or the `print` of a caught error. -/
def isBenignExtra (cmd : String) (ev : Event) : Prop :=
  ev = Event.invoke (pyLower cmd) 0 ∨ ev = Event.launch cmd ∨ ∃ e, ev = Event.printError e

lemma pressButton_trace (b : ButtonId) (homeDir : String) (s : ButtonState) (env : Env) :
    ∃ extra : List Event,
      (pressButton b homeDir s env).trace =
        (controlGet b.facadeKind homeDir s env).trace ++ extra ∧
      ∀ ev ∈ extra, isBenignExtra b.command ev := by
  rcases hb : b.isApplicationLaunch with _ | _
  · rw [pressButton_webOs b homeDir s env hb]
    obtain ⟨extra, h1, h2⟩ := webOsOnPress_trace b.facadeKind b.command homeDir s env
    refine ⟨extra, h1, fun ev hev => ?_⟩
    rcases h2 ev hev with h | ⟨e, h⟩
    · exact Or.inl h
    · exact Or.inr (Or.inr ⟨e, h⟩)
  · rw [pressButton_app b homeDir s env hb, facadeKind_of_applicationLaunch b hb]
    obtain ⟨extra, h1, h2⟩ := applicationOnPress_trace b.command homeDir s env
    refine ⟨extra, h1, fun ev hev => ?_⟩
    rcases h2 ev hev with h | ⟨e, h⟩
    · exact Or.inr (Or.inl h)
    · exact Or.inr (Or.inr ⟨e, h⟩)

lemma pressButton_propagated (b : ButtonId) (homeDir : String) (s : ButtonState)
    (env : Env)
    (hc : ∀ e, env.createResult = .error e → e.isOSError = true)
    (hci : ∀ e, env.connectInputResult = .error e → e.isOSError = true)
    (hiv : ∀ e, env.invokeResult = .error e → e.isOSError = true) :
    (pressButton b homeDir s env).propagated = none := by
  rcases hb : b.isApplicationLaunch with _ | _
  · rw [pressButton_webOs b homeDir s env hb]
    exact webOsOnPress_propagated b.facadeKind b.command homeDir s env hc hci hiv
  · rw [pressButton_app b homeDir s env hb]
    exact applicationOnPress_propagated b.command homeDir s env hc hci hiv

lemma benignExtra_counts (cmd : String) (extra : List Event)
    (h : ∀ ev ∈ extra, isBenignExtra cmd ev) :
    countConstruct extra = 0 ∧ countConnect extra = 0 := by
  constructor
  · rw [countConstruct, List.countP_eq_zero]
    intro ev hev
    rcases h ev hev with h1 | h1 | ⟨e, h1⟩ <;> subst h1 <;> simp [isConstructEvent]
  · rw [countConnect, List.countP_eq_zero]
    intro ev hev
    rcases h ev hev with h1 | h1 | ⟨e, h1⟩ <;> subst h1 <;> simp [isConnectInputEvent]

lemma pressButton_cached (b : ButtonId) (homeDir : String) (c : Facade) (env : Env) :
    (pressButton b homeDir ⟨some c⟩ env).state = ⟨some c⟩ ∧
    countConstruct (pressButton b homeDir ⟨some c⟩ env).trace = 0 ∧
    countConnect (pressButton b homeDir ⟨some c⟩ env).trace = 0 := by
  have hs := pressButton_state b homeDir ⟨some c⟩ env
  rw [controlGet_cached] at hs
  obtain ⟨extra, h1, h2⟩ := pressButton_trace b homeDir ⟨some c⟩ env
  rw [controlGet_cached] at h1
  obtain ⟨hcc, hcn⟩ := benignExtra_counts b.command extra h2
  refine ⟨hs, ?_, ?_⟩
  · rw [h1]; simpa [countConstruct] using hcc
  · rw [h1]; simpa [countConnect] using hcn

lemma pressButton_first_ok (b : ButtonId) (homeDir : String) (env : Env) (n : Nat)
    (h : env.createResult = .ok n) :
    (∃ c, (pressButton b homeDir ⟨none⟩ env).state = ⟨some c⟩) ∧
    countConstruct (pressButton b homeDir ⟨none⟩ env).trace = 1 ∧
    countConnect (pressButton b homeDir ⟨none⟩ env).trace =
      (if b.facadeKind = FacadeKind.input then 1 else 0) := by
  have hs := pressButton_state b homeDir ⟨none⟩ env
  obtain ⟨c, hc⟩ := controlGet_ok_create_state b.facadeKind homeDir env n h
  obtain ⟨extra, h1, h2⟩ := pressButton_trace b homeDir ⟨none⟩ env
  obtain ⟨hcc, hcn⟩ := benignExtra_counts b.command extra h2
  obtain ⟨hg1, hg2⟩ := controlGet_counts_create_ok b.facadeKind homeDir env n h
  refine ⟨⟨c, by rw [hs, hc]⟩, ?_, ?_⟩
  · rw [h1, countConstruct, List.countP_append]
    rw [countConstruct] at hg1 hcc
    omega
  · rw [h1, countConnect, List.countP_append]
    rw [countConnect] at hg2 hcn
    rw [hg2, hcn]
    exact Nat.add_zero _

/-- All external calls made by a sequence of presses, in order. -/
def totalTrace (rs : List PressResult) : List Event :=
  (rs.map PressResult.trace).flatten

lemma totalTrace_cons (r : PressResult) (rs : List PressResult) :
    totalTrace (r :: rs) = r.trace ++ totalTrace rs := by
  simp [totalTrace]

lemma runPresses_cached (b : ButtonId) (homeDir : String) (c : Facade)
    (envs : List Env) :
    (∀ r ∈ runPresses b homeDir ⟨some c⟩ envs, r.state = ⟨some c⟩) ∧
    countConstruct (totalTrace (runPresses b homeDir ⟨some c⟩ envs)) = 0 ∧
    countConnect (totalTrace (runPresses b homeDir ⟨some c⟩ envs)) = 0 := by
  induction envs with
  | nil => exact ⟨by intro r hr; exact absurd hr (by simp [runPresses]), by simp [totalTrace, runPresses, countConstruct, countConnect], by simp [totalTrace, runPresses, countConstruct, countConnect]⟩
  | cons env rest ih =>
    obtain ⟨hs, hcc, hcn⟩ := pressButton_cached b homeDir c env
    simp only [runPresses]
    rw [hs]
    obtain ⟨ih1, ih2, ih3⟩ := ih
    refine ⟨?_, ?_, ?_⟩
    · intro r hr
      rcases List.mem_cons.mp hr with h1 | h1
      · rw [h1, hs]
      · exact ih1 r h1
    · rw [totalTrace_cons, countConstruct, List.countP_append]
      rw [countConstruct] at hcc ih2
      omega
    · rw [totalTrace_cons, countConnect, List.countP_append]
      rw [countConnect] at hcn ih3
      omega

/-- Every command string in the program is already lower-case, so the
`.lower()` in `WebOsButton.on_press` maps each to itself. -/
lemma command_pyLower (b : ButtonId) : pyLower b.command = b.command := by
  cases b <;> rfl

lemma webOsOnPress_invoke_mem (k : FacadeKind) (cmd homeDir : String) (s : ButtonState)
    (env : Env) (c : Facade) (h : (controlGet k homeDir s env).result = .ok c) :
    Event.invoke (pyLower cmd) 0 ∈ (webOsOnPress k cmd homeDir s env).trace := by
  simp only [webOsOnPress]
  rw [h]
  rcases hiv : env.invokeResult with e2 | u
  · cases e2 <;> simp [handleCaught]
  · simp

lemma applicationOnPress_launch_mem (cmd homeDir : String) (s : ButtonState)
    (env : Env) (c : Facade)
    (h : (controlGet .application homeDir s env).result = .ok c) :
    Event.launch cmd ∈ (applicationOnPress cmd homeDir s env).trace := by
  simp only [applicationOnPress]
  rw [h]
  rcases hiv : env.invokeResult with e2 | u
  · cases e2 <;> simp [handleCaught]
  · simp

lemma controlGet_construct_mem (k : FacadeKind) (homeDir : String) (env : Env)
    (n : Nat) (h : env.createResult = .ok n) :
    Event.facadeConstruct k n ∈ (controlGet k homeDir ⟨none⟩ env).trace := by
  by_cases hk : k = FacadeKind.input
  · subst hk
    rcases hci : env.connectInputResult with e2 | u
    · rw [controlGet_ok_input_connect_error homeDir env n e2 h hci]; simp
    · cases u
      rw [controlGet_ok_input_connect_ok homeDir env n h hci]; simp
  · rw [controlGet_ok_noninput k homeDir env n h hk]; simp

lemma pressButton_create_error_printed (b : ButtonId) (homeDir : String) (env : Env)
    (e : PyExc) (he : e.isOSError = true) (h : env.createResult = .error e) :
    Event.printError e ∈ (pressButton b homeDir ⟨none⟩ env).trace := by
  rcases hb : b.isApplicationLaunch with _ | _
  · rw [pressButton_webOs b homeDir ⟨none⟩ env hb]
    simp only [webOsOnPress]
    have hg : (controlGet b.facadeKind homeDir ⟨none⟩ env).result = .error e := by
      rw [controlGet_create_error b.facadeKind homeDir env e h]
    rw [hg]
    cases e with
    | osError m => simp [handleCaught]
    | other m => simp [PyExc.isOSError] at he
  · rw [pressButton_app b homeDir ⟨none⟩ env hb]
    simp only [applicationOnPress]
    have hg : (controlGet .application homeDir ⟨none⟩ env).result = .error e := by
      rw [controlGet_create_error .application homeDir env e h]
    rw [hg]
    cases e with
    | osError m => simp [handleCaught]
    | other m => simp [PyExc.isOSError] at he

/-! ## Claims -/

/-- C1 (counterexample): the claim extends the catch-and-print contract to
the power-on button, but `PowerOn.on_press` has no `try`/`except`: when
`get_mac_address` raises an OS-level error on a press of the power-on
button, the error propagates past the dispatch boundary. -/
theorem c1_counterexample_poweron_error_propagates :
    (powerOnPress ⟨"192.168.1.50"⟩
        ⟨.error (.osError "Network is unreachable"), .ok ()⟩).2 =
      some (.osError "Network is unreachable") := rfl

/-- C1 (amended): for every command button (System, Media, Application,
Input) and every activation, any OS-level or network-level error raised
during command invocation — at `adapter.create`, at `connect_input`, or at
the command/launch call — is caught at the dispatch boundary and only
printed; nothing propagates to the UI.  The power-on button is not covered:
its dispatch has no handler. -/
theorem c1_command_buttons_catch_and_print_os_errors (b : ButtonId)
    (homeDir : String) (s : ButtonState) (env : Env)
    (hc : ∀ e, env.createResult = .error e → e.isOSError = true)
    (hci : ∀ e, env.connectInputResult = .error e → e.isOSError = true)
    (hiv : ∀ e, env.invokeResult = .error e → e.isOSError = true) :
    (pressButton b homeDir s env).propagated = none ∧
    (∀ e, env.createResult = .error e → s.control = none →
      Event.printError e ∈ (pressButton b homeDir s env).trace) := by
  refine ⟨pressButton_propagated b homeDir s env hc hci hiv, ?_⟩
  intro e he hs
  obtain ⟨ctl⟩ := s
  simp only at hs
  subst hs
  exact pressButton_create_error_printed b homeDir env e (hc e he) he

/-- C1 witness. -/
theorem c1_command_buttons_catch_and_print_os_errors_witness :
    (pressButton .volumeUp "/home/user" ⟨none⟩
        ⟨.error (.osError "Connection refused"), .ok (), .ok ()⟩).propagated = none ∧
    (∀ e, (⟨.error (.osError "Connection refused"), .ok (), .ok ()⟩ : Env).createResult
          = .error e →
      (⟨none⟩ : ButtonState).control = none →
      Event.printError e ∈ (pressButton .volumeUp "/home/user" ⟨none⟩
        ⟨.error (.osError "Connection refused"), .ok (), .ok ()⟩).trace) :=
  c1_command_buttons_catch_and_print_os_errors .volumeUp "/home/user" ⟨none⟩
    ⟨.error (.osError "Connection refused"), .ok (), .ok ()⟩
    (fun e h => by injection h with h1; rw [← h1]; rfl)
    (fun e h => nomatch h)
    (fun e h => nomatch h)

/-- C6: power-on dispatch never talks to the television control protocol
client: its trace contains no adapter, façade-construction, connect-input,
command or launch call; it is exactly the address-resolution lookup of the
configured host, followed — when resolution returns an address — by the
wake-packet transmission to that address, in that order.  `powerOnPress`
takes no button state at all: nothing is cached between presses. -/
theorem c6_poweron_only_resolves_then_wakes (host : String) (env : PowerEnv) :
    (∀ ev ∈ (powerOnPress ⟨host⟩ env).1, isTvProtocolEvent ev = false) ∧
    ((powerOnPress ⟨host⟩ env).1 = [Event.getMacAddress host] ∨
     ∃ mac, env.macResult = .ok mac ∧
       (powerOnPress ⟨host⟩ env).1 =
         [Event.getMacAddress host, Event.sendMagicPacket mac]) := by
  simp only [powerOnPress]
  rcases hm : env.macResult with e | mac
  · refine ⟨?_, Or.inl rfl⟩
    intro ev hev
    simp only [List.mem_singleton] at hev
    subst hev
    rfl
  · refine ⟨?_, Or.inr ⟨mac, rfl, ?_⟩⟩
    · intro ev hev
      rcases hs : env.sendResult with e2 | u <;> rw [hs] at hev <;>
        simp only [List.mem_cons, List.mem_singleton] at hev <;>
        rcases hev with h1 | h1 <;> first
          | (subst h1; rfl)
          | (rcases h1 with h1 | h1
             · subst h1; rfl
             · exact absurd h1 (by simp))
    · rcases hs : env.sendResult with e2 | u <;> rfl

/-- C6 witness. -/
theorem c6_poweron_only_resolves_then_wakes_witness :
    (∀ ev ∈ (powerOnPress ⟨"192.168.1.50"⟩
        ⟨.ok "aa:bb:cc:dd:ee:ff", .ok ()⟩).1, isTvProtocolEvent ev = false) ∧
    ((powerOnPress ⟨"192.168.1.50"⟩ ⟨.ok "aa:bb:cc:dd:ee:ff", .ok ()⟩).1 =
        [Event.getMacAddress "192.168.1.50"] ∨
     ∃ mac, (⟨.ok "aa:bb:cc:dd:ee:ff", .ok ()⟩ : PowerEnv).macResult = .ok mac ∧
       (powerOnPress ⟨"192.168.1.50"⟩ ⟨.ok "aa:bb:cc:dd:ee:ff", .ok ()⟩).1 =
         [Event.getMacAddress "192.168.1.50", Event.sendMagicPacket mac]) :=
  c6_poweron_only_resolves_then_wakes "192.168.1.50" ⟨.ok "aa:bb:cc:dd:ee:ff", .ok ()⟩

/-- C8: the body of `Play.command` — the placeholder expression statement
`.0` followed by `return 'play'` — returns `"play"` without raising and
without touching any state, so `Play.command` is the constant `"play"`. -/
theorem c8_play_command_is_constant_play :
    (∀ (S : Type) (st : S), execStmts playCommandBody st = .ok ("play", st)) ∧
    ButtonId.play.command = "play" :=
  ⟨fun _ _ => rfl, rfl⟩

/-- First-press environment for the C5 scenario: `adapter.create` succeeds
(handle 7) but `connect_input` raises a network-level error. -/
def inputConnectFailEnv : Env := ⟨.ok 7, .error (.osError "Connection refused"), .ok ()⟩

/-- Second-press environment for the C5 scenario: every transport call
succeeds. -/
def workingTransportEnv : Env := ⟨.ok 8, .ok (), .ok ()⟩

/-- C5 (code bug): press the `Ok` input button twice; the first press fails
at `connect_input` with a network-level error, the second press has a fully
working transport.  The error is indeed caught (nothing propagates on
either press), but because `InputButton.control` assigns `self._control`
before calling `connect_input()`, the failed first press caches the
unconnected façade; the second press performs no `connect_input` call and
still holds a façade whose input channel was never connected — it does not
yield a correctly connected input façade as the claim requires. -/
theorem c5_failed_connect_is_cached_and_never_retried :
    (pressButton .ok "/home/user" ⟨none⟩ inputConnectFailEnv).propagated = none ∧
    (pressButton .ok "/home/user" ⟨none⟩ inputConnectFailEnv).state =
      ⟨some ⟨.input, 7, false⟩⟩ ∧
    countConnect (pressButton .ok "/home/user"
        (pressButton .ok "/home/user" ⟨none⟩ inputConnectFailEnv).state
        workingTransportEnv).trace = 0 ∧
    (pressButton .ok "/home/user"
        (pressButton .ok "/home/user" ⟨none⟩ inputConnectFailEnv).state
        workingTransportEnv).state = ⟨some ⟨.input, 7, false⟩⟩ ∧
    (pressButton .ok "/home/user"
        (pressButton .ok "/home/user" ⟨none⟩ inputConnectFailEnv).state
        workingTransportEnv).propagated = none :=
  ⟨rfl, rfl, rfl, rfl, rfl⟩

/-- C2: on a button whose first press reaches a successful `adapter.create`,
exactly one façade is constructed over any sequence of presses, and every
press leaves the button holding the façade cached by the first press (all
subsequent presses reuse that same instance). -/
theorem c2_facade_constructed_once_per_button (b : ButtonId) (homeDir : String)
    (env1 : Env) (envs : List Env) (n : Nat) (h1 : env1.createResult = .ok n) :
    countConstruct (totalTrace (runPresses b homeDir ⟨none⟩ (env1 :: envs))) = 1 ∧
    ∀ r ∈ runPresses b homeDir ⟨none⟩ (env1 :: envs),
      r.state = (pressButton b homeDir ⟨none⟩ env1).state := by
  obtain ⟨⟨c, hc⟩, hcc, hcn⟩ := pressButton_first_ok b homeDir env1 n h1
  obtain ⟨hall, hzc, hzn⟩ := runPresses_cached b homeDir c envs
  simp only [runPresses]
  rw [hc]
  constructor
  · rw [totalTrace_cons, countConstruct, List.countP_append]
    rw [countConstruct] at hcc hzc
    omega
  · intro r hr
    rcases List.mem_cons.mp hr with h2 | h2
    · rw [h2, hc]
    · exact hall r h2

/-- C2 witness. -/
theorem c2_facade_constructed_once_per_button_witness :
    countConstruct (totalTrace (runPresses .volumeUp "/home/user" ⟨none⟩
      (⟨.ok 1, .ok (), .ok ()⟩ :: [⟨.ok 2, .ok (), .ok ()⟩]))) = 1 ∧
    ∀ r ∈ runPresses .volumeUp "/home/user" ⟨none⟩
      (⟨.ok 1, .ok (), .ok ()⟩ :: [⟨.ok 2, .ok (), .ok ()⟩]),
      r.state = (pressButton .volumeUp "/home/user" ⟨none⟩
        ⟨.ok 1, .ok (), .ok ()⟩).state :=
  c2_facade_constructed_once_per_button .volumeUp "/home/user"
    ⟨.ok 1, .ok (), .ok ()⟩ [⟨.ok 2, .ok (), .ok ()⟩] 1 rfl

/-- C3: application-launch dispatch calls `launch` with a descriptor whose
identifier equals the button's command string — the trace of a successful
press contains `launch cmd` and every `launch` event in any press carries
exactly the command string; `SettingsApp`'s command is
`"com.palm.app.settings"` and its press is exactly this launch dispatch. -/
theorem c3_launch_descriptor_id_is_command (cmd homeDir : String) (s : ButtonState)
    (env : Env) (c : Facade)
    (hok : (controlGet .application homeDir s env).result = .ok c) :
    (Event.launch cmd ∈ (applicationOnPress cmd homeDir s env).trace ∧
     ∀ d, Event.launch d ∈ (applicationOnPress cmd homeDir s env).trace → d = cmd) ∧
    ButtonId.settingsApp.command = "com.palm.app.settings" ∧
    pressButton .settingsApp homeDir s env =
      applicationOnPress "com.palm.app.settings" homeDir s env := by
  refine ⟨⟨applicationOnPress_launch_mem cmd homeDir s env c hok, ?_⟩, rfl, rfl⟩
  intro d hd
  obtain ⟨extra, h1, h2⟩ := applicationOnPress_trace cmd homeDir s env
  rw [h1] at hd
  rcases List.mem_append.mp hd with hmem | hmem
  · rcases controlGet_trace_shape .application homeDir s env _ hmem with
      h3 | ⟨n, h3⟩ | h3 <;> simp at h3
  · rcases h2 _ hmem with h3 | ⟨e, h3⟩
    · exact Event.launch.inj h3
    · exact absurd h3 (by simp)

/-- C3 witness. -/
theorem c3_launch_descriptor_id_is_command_witness :
    (Event.launch "com.palm.app.settings" ∈
       (applicationOnPress "com.palm.app.settings" "/home/user" ⟨none⟩
         ⟨.ok 3, .ok (), .ok ()⟩).trace ∧
     ∀ d, Event.launch d ∈ (applicationOnPress "com.palm.app.settings" "/home/user"
         ⟨none⟩ ⟨.ok 3, .ok (), .ok ()⟩).trace → d = "com.palm.app.settings") ∧
    ButtonId.settingsApp.command = "com.palm.app.settings" ∧
    pressButton .settingsApp "/home/user" ⟨none⟩ ⟨.ok 3, .ok (), .ok ()⟩ =
      applicationOnPress "com.palm.app.settings" "/home/user" ⟨none⟩
        ⟨.ok 3, .ok (), .ok ()⟩ :=
  c3_launch_descriptor_id_is_command "com.palm.app.settings" "/home/user" ⟨none⟩
    ⟨.ok 3, .ok (), .ok ()⟩ ⟨.application, 3, false⟩ rfl

/-- C4: for an input button whose first press reaches a successful
`adapter.create`, that first press performs exactly one `connect_input`
call, and over any whole sequence of presses the total number of
`connect_input` calls is still exactly one — acquisition connects the input
channel once, on first use only. -/
theorem c4_input_channel_connected_exactly_once (b : ButtonId) (homeDir : String)
    (env1 : Env) (envs : List Env) (n : Nat)
    (hb : b.facadeKind = FacadeKind.input) (h1 : env1.createResult = .ok n) :
    countConnect (pressButton b homeDir ⟨none⟩ env1).trace = 1 ∧
    countConnect (totalTrace (runPresses b homeDir ⟨none⟩ (env1 :: envs))) = 1 := by
  obtain ⟨⟨c, hc⟩, hcc, hcn⟩ := pressButton_first_ok b homeDir env1 n h1
  rw [hb] at hcn
  simp only [if_pos] at hcn
  obtain ⟨hall, hzc, hzn⟩ := runPresses_cached b homeDir c envs
  refine ⟨hcn, ?_⟩
  simp only [runPresses]
  rw [hc, totalTrace_cons, countConnect, List.countP_append]
  rw [countConnect] at hcn hzn
  omega

/-- C4 witness. -/
theorem c4_input_channel_connected_exactly_once_witness :
    countConnect (pressButton .home "/home/user" ⟨none⟩
      ⟨.ok 4, .ok (), .ok ()⟩).trace = 1 ∧
    countConnect (totalTrace (runPresses .home "/home/user" ⟨none⟩
      (⟨.ok 4, .ok (), .ok ()⟩ :: [⟨.ok 5, .ok (), .ok ()⟩]))) = 1 :=
  c4_input_channel_connected_exactly_once .home "/home/user"
    ⟨.ok 4, .ok (), .ok ()⟩ [⟨.ok 5, .ok (), .ok ()⟩] 4 rfl rfl

/-- C7: a non-application command button whose façade resolves successfully
invokes on it exactly the zero-argument method named by its command string
(`.lower()` is the identity on every command in the program), and no other
method invocation appears in the press trace. -/
theorem c7_nonapp_invokes_exactly_command_method (b : ButtonId) (homeDir : String)
    (s : ButtonState) (env : Env) (c : Facade)
    (hb : b.isApplicationLaunch = false)
    (hok : (controlGet b.facadeKind homeDir s env).result = .ok c) :
    Event.invoke b.command 0 ∈ (pressButton b homeDir s env).trace ∧
    ∀ m a, Event.invoke m a ∈ (pressButton b homeDir s env).trace →
      m = b.command ∧ a = 0 := by
  rw [pressButton_webOs b homeDir s env hb]
  constructor
  · have h := webOsOnPress_invoke_mem b.facadeKind b.command homeDir s env c hok
    rwa [command_pyLower] at h
  · intro m a hm
    obtain ⟨extra, h1, h2⟩ := webOsOnPress_trace b.facadeKind b.command homeDir s env
    rw [h1] at hm
    rcases List.mem_append.mp hm with hmem | hmem
    · rcases controlGet_trace_shape b.facadeKind homeDir s env _ hmem with
        h3 | ⟨n, h3⟩ | h3 <;> simp at h3
    · rcases h2 _ hmem with h3 | ⟨e, h3⟩
      · rw [command_pyLower] at h3
        injection h3 with h4 h5
        exact ⟨h4, h5⟩
      · exact absurd h3 (by simp)

/-- C7 witness: the PowerOff button invokes the method named "power_off". -/
theorem c7_nonapp_invokes_exactly_command_method_witness :
    Event.invoke (ButtonId.powerOff.command) 0 ∈
      (pressButton .powerOff "/home/user" ⟨none⟩ ⟨.ok 1, .ok (), .ok ()⟩).trace ∧
    ∀ m a, Event.invoke m a ∈
      (pressButton .powerOff "/home/user" ⟨none⟩ ⟨.ok 1, .ok (), .ok ()⟩).trace →
      m = ButtonId.powerOff.command ∧ a = 0 :=
  c7_nonapp_invokes_exactly_command_method .powerOff "/home/user" ⟨none⟩
    ⟨.ok 1, .ok (), .ok ()⟩ ⟨.system, 1, false⟩ rfl rfl

/-- C9: every façade acquisition uses the fixed configuration path — the
home directory joined with ".lgtv.yaml" — and the fixed device name
"living_room"; the same constants appear in the startup `settings.load`
path, the `PowerGrid` settings lookup, and every `adapter.create` call any
button press performs. -/
theorem c9_constant_config_path_and_device_name (homeDir : String) :
    (∀ k, kindConfigPath k homeDir = homeDir ++ "/.lgtv.yaml") ∧
    controlDeviceName = "living_room" ∧
    buildConfigPath homeDir = homeDir ++ "/.lgtv.yaml" ∧
    powerGridDeviceName = "living_room" ∧
    ∀ b s env p d, Event.adapterCreate p d ∈ (pressButton b homeDir s env).trace →
      p = homeDir ++ "/.lgtv.yaml" ∧ d = "living_room" := by
  have hpath : ∀ k, kindConfigPath k homeDir = homeDir ++ "/.lgtv.yaml" := by
    intro k
    cases k <;>
      simp only [kindConfigPath, systemConfigPath, mediaConfigPath,
        applicationConfigPath, inputConfigPath, pathJoin] <;>
      rw [String.append_assoc] <;>
      exact rfl
  refine ⟨hpath, rfl, ?_, rfl, ?_⟩
  · simp only [buildConfigPath, pathJoin]
    rw [String.append_assoc]
    exact rfl
  · intro b s env p d hmem
    obtain ⟨extra, h1, h2⟩ := pressButton_trace b homeDir s env
    rw [h1] at hmem
    rcases List.mem_append.mp hmem with hm | hm
    · rcases controlGet_trace_shape b.facadeKind homeDir s env _ hm with
        h3 | ⟨n, h3⟩ | h3
      · injection h3 with h4 h5
        exact ⟨h4.trans (hpath b.facadeKind), h5⟩
      · exact absurd h3 (by simp)
      · exact absurd h3 (by simp)
    · rcases h2 _ hm with h3 | h3 | ⟨e, h3⟩ <;> exact absurd h3 (by simp)

/-- C9 witness. -/
theorem c9_constant_config_path_and_device_name_witness :
    (∀ k, kindConfigPath k "/home/user" = "/home/user" ++ "/.lgtv.yaml") ∧
    controlDeviceName = "living_room" ∧
    buildConfigPath "/home/user" = "/home/user" ++ "/.lgtv.yaml" ∧
    powerGridDeviceName = "living_room" ∧
    ∀ b s env p d,
      Event.adapterCreate p d ∈ (pressButton b "/home/user" s env).trace →
      p = "/home/user" ++ "/.lgtv.yaml" ∧ d = "living_room" :=
  c9_constant_config_path_and_device_name "/home/user"

/-- C10: for a System, Media or Application button, a press whose
`adapter.create` raises leaves the cached `_control` equal to `None`
(the assignment happens only on success), and a following press with a
working adapter performs the construction in full. -/
theorem c10_failed_construction_leaves_cache_empty (b : ButtonId)
    (homeDir : String) (env env2 : Env) (e : PyExc) (n : Nat)
    (hb : b.facadeKind ≠ FacadeKind.input)
    (h : env.createResult = .error e) (h2 : env2.createResult = .ok n) :
    (pressButton b homeDir ⟨none⟩ env).state = ⟨none⟩ ∧
    Event.facadeConstruct b.facadeKind n ∈
      (pressButton b homeDir (pressButton b homeDir ⟨none⟩ env).state env2).trace := by
  have hnoninput := hb
  have hs : (pressButton b homeDir ⟨none⟩ env).state = ⟨none⟩ := by
    rw [pressButton_state, controlGet_create_error b.facadeKind homeDir env e h]
  refine ⟨hs, ?_⟩
  rw [hs]
  obtain ⟨extra, h1, _⟩ := pressButton_trace b homeDir ⟨none⟩ env2
  rw [h1]
  exact List.mem_append_left _ (controlGet_construct_mem b.facadeKind homeDir env2 n h2)

/-- C10 witness. -/
theorem c10_failed_construction_leaves_cache_empty_witness :
    (pressButton .powerOff "/home/user" ⟨none⟩
      ⟨.error (.osError "TV unreachable"), .ok (), .ok ()⟩).state = ⟨none⟩ ∧
    Event.facadeConstruct (ButtonId.powerOff.facadeKind) 9 ∈
      (pressButton .powerOff "/home/user"
        (pressButton .powerOff "/home/user" ⟨none⟩
          ⟨.error (.osError "TV unreachable"), .ok (), .ok ()⟩).state
        ⟨.ok 9, .ok (), .ok ()⟩).trace :=
  c10_failed_construction_leaves_cache_empty .powerOff "/home/user"
    ⟨.error (.osError "TV unreachable"), .ok (), .ok ()⟩ ⟨.ok 9, .ok (), .ok ()⟩
    (.osError "TV unreachable") 9 (by decide) rfl rfl

end TouchRemote
